import Mathlib

/-!
Verification of the montblanc `BaseSolver` resource manager
(`montblanc/BaseSolver.py`) against its natural-language specification.

The Python code is shallowly embedded: a solver is a record of its
dimension values and registered array records; the methods
(`viable_timesteps`, `bytes_required`, `check_array`,
`handle_existing_array`, `register_array`, the constructor, the
`Parameter` descriptor setters and the context-manager protocol) become
Lean functions over that record.  Fallible Python code (raising) is
embedded as `Except`.  Python's unbounded integers are `Int`/`Nat`;
floor division `//` on integer operands is `Int.fdiv` (both round toward
minus infinity).  Where the source computes with NumPy scalars the NumPy
semantics are followed: integer floor division by zero warns and returns
`0` rather than raising, and the empty-`np.sum` float path is recorded
as a non-integer result (see `viable_timesteps`).  NumPy `int64`
overflow is not modelled: the byte counts involved are far below `2^63`
in every statement below.

Functions of `montblanc.util` (`get_numeric_shape`, `array_bytes`,
`nr_of_baselines`) and the v3 chunking strategy are not part of the
source tree; their definitions are modelled from the specification and
marked as such in their doc comments.
-/

/-- NumPy element types used by the solver, with their `itemsize` in bytes.
`int64` stands for the Python `int` type that `get_actual_dtype` maps the
string `'int'` to (`np.dtype(int).itemsize == 8`). -/
inductive DType
  | float32
  | float64
  | complex64
  | complex128
  | int32
  | int64
deriving DecidableEq

/-- `np.dtype(t).itemsize`. -/
def DType.itemsize : DType → Nat
  | .float32 => 4
  | .float64 => 8
  | .complex64 => 8
  | .complex128 => 16
  | .int32 => 4
  | .int64 => 8

/-- One element of a symbolic shape tuple: either an integer literal or the
name of a dimension/property (the source also allows arithmetic
expressions over names; the claims under verification only involve
literals and plain names). -/
inductive SDim
  | lit (n : Nat)
  | dim (name : String)
deriving DecidableEq

/-- `ArrayRecord` of `BaseSolver.py`: symbolic shape `sshape`, the resolved
shape stored at registration time, the element type, the registrant and
the storage-kind flags. -/
structure ArrayRecord where
  name : String
  sshape : List SDim
  shape : List Nat
  dtype : DType
  registrant : String
  has_cpu_ary : Bool
  has_gpu_ary : Bool
deriving DecidableEq

/-- The solver state: the nine `Parameter` dimension values, the floating
and complex element types `ft`/`ct`, the `store_cpu` flag, the registered
array records (the `self.arrays` dict, as a name-keyed list) and the
registered scalar properties that `get_properties` adds to the dimension
table (value only; the other `PropertyRecord` fields do not matter for the
claims below). -/
structure BaseSolver where
  na : Nat
  nbl : Nat
  nchan : Nat
  ntime : Nat
  npsrc : Nat
  ngsrc : Nat
  nssrc : Nat
  nsrc : Nat
  nvis : Nat
  ft : DType
  ct : DType
  store_cpu : Bool
  arrays : List ArrayRecord
  extraProps : List (String × Nat)
deriving DecidableEq

/-- `BaseSolver.get_properties`: the dict holding the nine dimension values,
then overwritten by every registered property (a later dict write wins, so
a property shadows a dimension of the same name). -/
def getProperties (s : BaseSolver) (n : String) : Option Nat :=
  match s.extraProps.lookup n with
  | some v => some v
  | none =>
    if n = "na" then some s.na
    else if n = "nbl" then some s.nbl
    else if n = "nchan" then some s.nchan
    else if n = "ntime" then some s.ntime
    else if n = "npsrc" then some s.npsrc
    else if n = "ngsrc" then some s.ngsrc
    else if n = "nssrc" then some s.nssrc
    else if n = "nsrc" then some s.nsrc
    else if n = "nvis" then some s.nvis
    else none

/-- Modelled from the spec: `montblanc.util.get_numeric_shape` (not under
`src/`).  Resolves a symbolic shape against the dimension table; a name
listed in `ignore` is dropped (its contribution stripped, per section 4.1
and the behaviour pinned by `tests/test_utils.py`); an unknown name makes
resolution fail. -/
def get_numeric_shape (sshape : List SDim) (props : String → Option Nat)
    (ignore : List String) : Option (List Nat) :=
  match sshape with
  | [] => some []
  | SDim.lit n :: rest => (get_numeric_shape rest props ignore).map (fun t => n :: t)
  | SDim.dim d :: rest =>
    if d ∈ ignore then get_numeric_shape rest props ignore
    else
      match props d with
      | none => none
      | some v => (get_numeric_shape rest props ignore).map (fun t => v :: t)

/-- `t.sshape.count('ntime')` of `viable_timesteps`: the number of entries
of the symbolic shape equal to the string `'ntime'` (exact matches only,
as Python tuple `count` does). -/
def count_ntime : List SDim → Nat
  | [] => 0
  | SDim.lit _ :: rest => count_ntime rest
  | SDim.dim d :: rest => count_ntime rest + (if d = "ntime" then 1 else 0)

/-- Modelled from the spec: `montblanc.util.array_bytes` (not under
`src/`), section 4.2: `product(shape) * element_size`. -/
def array_bytes (shape : List Nat) (dtype : DType) : Nat :=
  shape.prod * dtype.itemsize

/-- `BaseSolver.bytes_required`: the summed byte size of all registered
arrays. -/
def bytes_required (s : BaseSolver) : Nat :=
  (s.arrays.map (fun r => array_bytes r.shape r.dtype)).sum

/-- `List.mapM` over `Option`, written with plain structural recursion so
that proofs can proceed by induction on the list. -/
def mapOpt (f : α → Option β) : List α → Option (List β)
  | [] => some []
  | a :: l =>
    match f a with
    | none => none
    | some b => (mapOpt f l).map (fun bs => b :: bs)

/-- One entry of `viable_timesteps`' per-array computation: whether the
array's symbolic shape references `'ntime'`, paired with the byte product
of its shape resolved with `'ntime'` excluded. -/
def timeProduct (s : BaseSolver) (r : ArrayRecord) : Option (Bool × Nat) :=
  (get_numeric_shape r.sshape (getProperties s) ["ntime"]).map
    (fun sh => (decide (0 < count_ntime r.sshape), sh.prod * r.dtype.itemsize))

/-- The affine coefficients `(a, b)` of `viable_timesteps`: `a` sums the
byte products of the records without an `'ntime'` dimension, `b` those
with one.  `none` when some record's shape fails to resolve. -/
def timeCoeffs (s : BaseSolver) : Option (Nat × Nat) :=
  (mapOpt (timeProduct s) s.arrays).map (fun tps =>
    (((tps.filter (fun p => !p.fst)).map Prod.snd).sum,
     ((tps.filter (fun p => p.fst)).map Prod.snd).sum))

/-- The ways `viable_timesteps` can raise: a `KeyError` from resolving an
unknown dimension name, and the failure of its `assert`.  The final `//`
never raises: its operands are NumPy scalars (`np.sum` results), and
NumPy floor division by zero emits a `RuntimeWarning` and returns a
value instead of raising. -/
inductive VtError
  | unknownDimension
  | assertionFailed
deriving DecidableEq

/-- The value returned by `viable_timesteps`.  With at least one
registered array the products are `np.int64`, so the division result is
an integer — including `b == 0`, where NumPy integer floor division by
zero warns and returns `0`.  With no registered arrays the empty
`np.sum`s are `np.float64 0.0`, and float floor division by `0.0` warns
and yields a non-finite float (`inf`/`-inf`/`nan`, depending on the
numerator and the NumPy version); the embedding records only its
non-finiteness. -/
inductive VtResult
  | intVal (z : Int)
  | floatNonFinite
deriving DecidableEq

/-- `BaseSolver.viable_timesteps`: clamps a negative budget to zero,
computes the affine coefficients `(a, b)`, asserts
`a + b * self.ntime == self.bytes_required()`, then returns
`(budget - a + b - 1) // b`.  The division is NumPy floor division on
NumPy scalars: for a solver with registered arrays (integer operands,
assuming the registered shape tuples are non-empty, as all of the
repository's are) it floors toward minus infinity like Python and
returns `0` when `b == 0` (with a `RuntimeWarning`, not an exception);
for a solver with no registered arrays the operands are `np.float64` and
the division by `0.0` yields a non-finite float.  The result is never
clamped. -/
def viable_timesteps (s : BaseSolver) (bytes_available : Int) :
    Except VtError VtResult :=
  let budget : Int := if bytes_available < 0 then 0 else bytes_available
  match timeCoeffs s with
  | none => .error .unknownDimension
  | some (a, b) =>
    if a + b * s.ntime = bytes_required s then
      if s.arrays.isEmpty then .ok .floatNonFinite
      else if b = 0 then .ok (.intVal 0)
      else .ok (.intVal (Int.fdiv (budget - (a : Int) + (b : Int) - 1) (b : Int)))
    else .error .assertionFailed

instance {ε α : Type} [DecidableEq ε] [DecidableEq α] : DecidableEq (Except ε α) :=
  fun a b =>
    match a, b with
    | .ok x, .ok y => decidable_of_iff (x = y) (by simp)
    | .error x, .error y => decidable_of_iff (x = y) (by simp)
    | .ok _, .error _ => isFalse (by simp)
    | .error _, .ok _ => isFalse (by simp)

/-- A solver state as produced by the default construction
`BaseSolver(na=3, nchan=4, ntime=10, npsrc=2, ngsrc=1, nssrc=0)` before
any array registration. -/
def solver0 : BaseSolver :=
  { na := 3, nbl := 3, nchan := 4, ntime := 10, npsrc := 2, ngsrc := 1, nssrc := 0,
    nsrc := 3, nvis := 120, ft := DType.float32, ct := DType.complex64,
    store_cpu := false, arrays := [], extraProps := [] }

/-- `solver0` with two registered arrays: a fixed one of 16 bytes and one
whose shape scales with `'ntime'` at 4 bytes per timestep, registered at
`ntime = 10` (so the stored shapes agree with the dimension table). -/
def budgetSolver : BaseSolver :=
  { solver0 with arrays :=
      [ { name := "base", sshape := [SDim.lit 4], shape := [4],
          dtype := DType.float32, registrant := "test",
          has_cpu_ary := false, has_gpu_ary := true },
        { name := "tseries", sshape := [SDim.dim "ntime"], shape := [10],
          dtype := DType.float32, registrant := "test",
          has_cpu_ary := false, has_gpu_ary := true } ] }

example : timeCoeffs budgetSolver = some (16, 4) := by decide
example : bytes_required budgetSolver = 56 := by decide
example : viable_timesteps budgetSolver 100 = .ok (.intVal 21) := by decide
example : viable_timesteps budgetSolver 0 = .ok (.intVal (-4)) := by decide

/-- The errors of `check_array` (plus the `KeyError` of looking up an
unregistered name): `ValueError` on a shape mismatch, `TypeError` on a
dtype mismatch, each carrying the data the Python message interpolates. -/
inductive CheckError
  | shapeMismatch (name : String) (recShape argShape : List Nat)
  | typeMismatch (name : String) (recType argType : DType)
  | unknownArray (name : String)
deriving DecidableEq

/-- `BaseSolver.check_array` on a record: shape compared first, then
dtype, exactly as in the source. -/
def check_array (r : ArrayRecord) (aryShape : List Nat) (aryDtype : DType) :
    Except CheckError Unit :=
  if r.shape ≠ aryShape then .error (.shapeMismatch r.name r.shape aryShape)
  else if r.dtype ≠ aryDtype then .error (.typeMismatch r.name r.dtype aryDtype)
  else .ok ()

/-- `self.arrays.get(name, None)` / `self.arrays[name]`. -/
def findArray (s : BaseSolver) (name : String) : Option ArrayRecord :=
  s.arrays.find? (fun r => r.name == name)

/-- A write to a registered buffer through any of the paths of the source
(the `CPUArrayDescriptor`/`GPUArrayDescriptor` setters and the generated
`transfer_*` method): each first runs `self.check_array(name, value)` and
only stores on success.  Only the candidate's shape and dtype matter to
the check, so the write is modelled by them. -/
def write_registered (s : BaseSolver) (name : String) (aryShape : List Nat)
    (aryDtype : DType) : Except CheckError Unit :=
  match findArray s name with
  | none => .error (.unknownArray name)
  | some r => check_array r aryShape aryDtype

/-- The errors of `handle_existing_array` and `register_array`: the two
`ValueError`s identifying the existing registrant, and the `KeyError` of
resolving an unknown dimension name in the new shape. -/
inductive RegError
  | shapeConflict (name registrant : String) (oldShape newShape : List Nat)
  | typeConflict (name registrant : String) (oldType newType : DType)
  | unknownDimension (name : String)
deriving DecidableEq

/-- The registrant named by a conflict error. -/
def RegError.conflictRegistrant : RegError → Option String
  | .shapeConflict _ r _ _ => some r
  | .typeConflict _ r _ _ => some r
  | .unknownDimension _ => none

/-- `BaseSolver.handle_existing_array`: no existing record or an explicit
`replace` passes; otherwise the stored resolved shape is compared first,
then the dtype. -/
def handle_existing_array (old : Option ArrayRecord) (new : ArrayRecord)
    (replace : Bool) : Except RegError Unit :=
  match old with
  | none => .ok ()
  | some o =>
    if replace then .ok ()
    else if o.shape ≠ new.shape then
      .error (.shapeConflict o.name o.registrant o.shape new.shape)
    else if o.dtype ≠ new.dtype then
      .error (.typeConflict o.name o.registrant o.dtype new.dtype)
    else .ok ()

/-- The keyword arguments of `register_array` that affect the stored
record: `cpu` (default `False`), `gpu` (default `True`) and `replace`
(default `False`).  The remaining kwargs only shape the generated
accessors. -/
structure RegOpts where
  cpu : Bool := false
  gpu : Bool := true
  replace : Bool := false

/-- The dtype argument of `register_array`: either an actual type or one
of the strings `'ft'`/`'ct'`/`'int'` that `get_actual_dtype` substitutes. -/
inductive DTypeArg
  | concrete (d : DType)
  | ft
  | ct
  | int

/-- `BaseSolver.get_actual_dtype`. -/
def get_actual_dtype (s : BaseSolver) : DTypeArg → DType
  | .concrete d => d
  | .ft => s.ft
  | .ct => s.ct
  | .int => .int64

/-- `self.arrays[name] = new` on the name-keyed list: replace the entry
with that key, or append when absent. -/
def updateArrays (l : List ArrayRecord) (name : String) (new : ArrayRecord) :
    List ArrayRecord :=
  match l with
  | [] => [new]
  | r :: rest =>
    if r.name = name then new :: rest else r :: updateArrays rest name new

/-- `BaseSolver.register_array`: looks up the existing record, computes the
storage flags (an existing storage kind is kept, a requested one added),
resolves the symbolic shape against the current dimension table,
substitutes a string dtype, builds the new record, runs
`handle_existing_array` and stores the record.  The creation of the
backing ndarray/gpuarray and of the generated accessors is a side effect
on storage, not on the record, and is not modelled. -/
def register_array (s : BaseSolver) (name : String) (sshape : List SDim)
    (dt : DTypeArg) (registrant : String) (opts : RegOpts) :
    Except RegError BaseSolver :=
  let old := findArray s name
  let want_cpu := opts.cpu || s.store_cpu
  let want_gpu := opts.gpu
  let cpu_exists := match old with | some o => o.has_cpu_ary | none => false
  let gpu_exists := match old with | some o => o.has_gpu_ary | none => false
  let has_cpu := cpu_exists || want_cpu
  let has_gpu := gpu_exists || want_gpu
  match get_numeric_shape sshape (getProperties s) [] with
  | none => .error (.unknownDimension name)
  | some shape =>
    let dtype := get_actual_dtype s dt
    let new : ArrayRecord :=
      { name := name, sshape := sshape, shape := shape, dtype := dtype,
        registrant := registrant, has_cpu_ary := has_cpu, has_gpu_ary := has_gpu }
    match handle_existing_array old new opts.replace with
    | .error e => .error e
    | .ok _ => .ok { s with arrays := updateArrays s.arrays name new }

/-- Modelled from the spec: `montblanc.util.nr_of_baselines` (not under
`src/`), section 3: `n(n-1)/2` without auto-correlations, `n(n+1)/2`
with them (Python floor division). -/
def nr_of_baselines (na : Int) (autocor : Bool) : Int :=
  if autocor then Int.fdiv (na * (na + 1)) 2 else Int.fdiv (na * (na - 1)) 2

/-- The ways `BaseSolver.__init__` can raise, in source order: the
`ValueError` of a `Parameter` descriptor rejecting a negative value; the
exception of the zero-source check — NOTE: the source writes
`raise ValueError(...) % (npsrc, ngsrc, nssrc)`, which applies `%` to the
already-constructed exception object and therefore raises
`TypeError: unsupported operand type(s)` instead of the intended
`ValueError`, modelled as `sourceCountTypeError`; the `TypeError` for a
dtype other than `np.float32`/`np.float64`; and the `Exception` for a
missing CUDA context. -/
inductive ConstructError
  | negativeParameter (v : Int)
  | sourceCountTypeError
  | unsupportedDType
  | noContext
deriving DecidableEq

/-- The `if dtype == np.float32 ... elif ... else raise` ladder choosing
the complex type. -/
def complexTypeOf : DType → Option DType
  | .float32 => some .complex64
  | .float64 => some .complex128
  | _ => none

/-- `BaseSolver.__init__`, in source order: the nine `Parameter`
assignments (each rejecting a negative value), the zero-source check, the
dtype ladder, the context check, and only then the creation of the
`ContextWrapper` (the first touch of an accelerator resource, so every
error above is returned for any value of `context`, including `none`).
The compute-capability query on the context does not affect any verified
field and is not modelled. -/
def mkBaseSolver (na nchan ntime npsrc ngsrc nssrc : Int) (dtype : DType)
    (autocor : Bool) (context : Option Unit) (store_cpu : Bool) :
    Except ConstructError BaseSolver :=
  if na < 0 then .error (.negativeParameter na) else
  if nr_of_baselines na autocor < 0 then
    .error (.negativeParameter (nr_of_baselines na autocor)) else
  if nchan < 0 then .error (.negativeParameter nchan) else
  if ntime < 0 then .error (.negativeParameter ntime) else
  if npsrc < 0 then .error (.negativeParameter npsrc) else
  if ngsrc < 0 then .error (.negativeParameter ngsrc) else
  if nssrc < 0 then .error (.negativeParameter nssrc) else
  if npsrc + ngsrc + nssrc < 0 then
    .error (.negativeParameter (npsrc + ngsrc + nssrc)) else
  if nr_of_baselines na autocor * nchan * ntime < 0 then
    .error (.negativeParameter (nr_of_baselines na autocor * nchan * ntime)) else
  if npsrc + ngsrc + nssrc = 0 then .error .sourceCountTypeError else
  match complexTypeOf dtype with
  | none => .error .unsupportedDType
  | some ct =>
    match context with
    | none => .error .noContext
    | some _ =>
      .ok { na := na.toNat,
            nbl := (nr_of_baselines na autocor).toNat,
            nchan := nchan.toNat,
            ntime := ntime.toNat,
            npsrc := npsrc.toNat,
            ngsrc := ngsrc.toNat,
            nssrc := nssrc.toNat,
            nsrc := (npsrc + ngsrc + nssrc).toNat,
            nvis := (nr_of_baselines na autocor * nchan * ntime).toNat,
            ft := dtype, ct := ct, store_cpu := store_cpu,
            arrays := [], extraProps := [] }

example : mkBaseSolver 3 4 10 2 1 0 DType.float32 false (some ()) false =
    .ok solver0 := by decide

/-- `Parameter.__set__` for `na`: rejects a negative value, otherwise
stores it; nothing else on the instance is touched. -/
def set_na (s : BaseSolver) (v : Int) : Except ConstructError BaseSolver :=
  if v < 0 then .error (.negativeParameter v) else .ok { s with na := v.toNat }

/-- `Parameter.__set__` for `nchan`. -/
def set_nchan (s : BaseSolver) (v : Int) : Except ConstructError BaseSolver :=
  if v < 0 then .error (.negativeParameter v) else .ok { s with nchan := v.toNat }

/-- `Parameter.__set__` for `ntime`. -/
def set_ntime (s : BaseSolver) (v : Int) : Except ConstructError BaseSolver :=
  if v < 0 then .error (.negativeParameter v) else .ok { s with ntime := v.toNat }

/-- Modelled from the spec: the chunking strategy of the v3
`CompositeSolver` (not under `src/`; only its test is), section 4.3:
split `N` into `k` ordered sub-problems, the first `k - N % k` of size
`N / k` and the remaining `N % k` of size `N / k + 1`. -/
def chunk_sizes (N k : Nat) : List Nat :=
  List.replicate (k - N % k) (N / k) ++ List.replicate (N % k) (N / k + 1)

example : chunk_sizes 27 3 = [9, 9, 9] := by decide
example : chunk_sizes 7 3 = [2, 2, 3] := by decide

/-- The lifecycle events observable through the scoped-acquisition
protocol. -/
inductive Event
  | initialise
  | shutdown
deriving DecidableEq

/-- `BaseSolver.__enter__`: calls `self.initialise()` (which drives the
pipeline's initialise) and returns `self`. -/
def solver_enter (t : List Event) : List Event := t ++ [Event.initialise]

/-- `BaseSolver.__exit__`: calls `self.shutdown()`; it returns `None`, so
an exception from the body is re-raised after shutdown. -/
def solver_exit (t : List Event) : List Event := t ++ [Event.shutdown]

/-- The `with` statement of Python wrapped around this solver: run
`__enter__`, run the body (which appends its own events and either
returns a value or raises), and run `__exit__` on both exit paths —
on the exceptional path `__exit__` runs and the exception is then
re-raised because `__exit__` returns `None`. -/
def withStmt {β E : Type} (body : List Event → List Event × Except E β)
    (t : List Event) : List Event × Except E β :=
  let t1 := solver_enter t
  match body t1 with
  | (t2, .ok b) => (solver_exit t2, .ok b)
  | (t2, .error e) => (solver_exit t2, .error e)

/-- Resolving a symbolic shape with `'ntime'` excluded succeeds whenever
full resolution does, and the full product is the excluded product times
`ntime` to the power of the number of `'ntime'` entries. -/
lemma gns_ignore_prod (props : String → Option Nat) :
    ∀ (sshape : List SDim) (full : List Nat),
      get_numeric_shape sshape props [] = some full →
      ∃ ign, get_numeric_shape sshape props ["ntime"] = some ign ∧
        full.prod = ((props "ntime").getD 1) ^ count_ntime sshape * ign.prod := by
  intro sshape
  induction sshape with
  | nil =>
    intro full h
    simp only [get_numeric_shape, Option.some.injEq] at h
    exact ⟨[], rfl, by simp [← h, count_ntime]⟩
  | cons e rest ih =>
    intro full h
    cases e with
    | lit n =>
      simp only [get_numeric_shape] at h
      rcases Option.map_eq_some'.mp h with ⟨frest, hr, hfull⟩
      rcases ih frest hr with ⟨ign, hign, hprod⟩
      refine ⟨n :: ign, ?_, ?_⟩
      · simp [get_numeric_shape, hign]
      · rw [← hfull]
        simp only [List.prod_cons, count_ntime, hprod]
        ring
    | dim d =>
      simp only [get_numeric_shape, List.not_mem_nil, if_false] at h
      cases hd : props d with
      | none => rw [hd] at h; exact absurd h (by simp)
      | some v =>
        rw [hd] at h
        rcases Option.map_eq_some'.mp h with ⟨frest, hr, hfull⟩
        rcases ih frest hr with ⟨ign, hign, hprod⟩
        by_cases hdn : d = "ntime"
        · subst hdn
          refine ⟨ign, ?_, ?_⟩
          · simp [get_numeric_shape, hign]
          · rw [← hfull]
            simp only [List.prod_cons, count_ntime, if_pos rfl, hprod, hd]
            simp [pow_succ]
            ring
        · refine ⟨v :: ign, ?_, ?_⟩
          · simp only [get_numeric_shape, List.mem_singleton, if_neg hdn, hd]
            rw [hign]; rfl
          · rw [← hfull]
            simp only [List.prod_cons, count_ntime, if_neg hdn, hprod]
            ring

/-- `timeProduct` of a record whose full resolution is its stored shape:
it succeeds, and the full byte size relates to the excluded product by a
power of `ntime`. -/
lemma timeProduct_of_resolved (s : BaseSolver) (r : ArrayRecord)
    (hres : get_numeric_shape r.sshape (getProperties s) [] = some r.shape) :
    ∃ p, timeProduct s r = some (decide (0 < count_ntime r.sshape), p) ∧
      array_bytes r.shape r.dtype =
        ((getProperties s "ntime").getD 1) ^ count_ntime r.sshape * p := by
  rcases gns_ignore_prod (getProperties s) r.sshape r.shape hres with ⟨ign, hign, hprod⟩
  refine ⟨ign.prod * r.dtype.itemsize, ?_, ?_⟩
  · simp [timeProduct, hign]
  · simp only [array_bytes, hprod]
    ring

/-- Over a list of records that are affine in `'ntime'` (at most one
`'ntime'` entry each) and whose stored shapes agree with the current
dimension table, the per-array pass of `viable_timesteps` succeeds and its
two sums satisfy `a + b * ntime = ` total bytes. -/
lemma affine_decomp (s : BaseSolver)
    (hnt : getProperties s "ntime" = some s.ntime) :
    ∀ l : List ArrayRecord,
      (∀ r ∈ l, count_ntime r.sshape ≤ 1) →
      (∀ r ∈ l, get_numeric_shape r.sshape (getProperties s) [] = some r.shape) →
      ∃ tps, mapOpt (timeProduct s) l = some tps ∧
        ((tps.filter (fun p => !p.fst)).map Prod.snd).sum
          + ((tps.filter (fun p => p.fst)).map Prod.snd).sum * s.ntime
          = (l.map (fun r => array_bytes r.shape r.dtype)).sum := by
  intro l
  induction l with
  | nil => intro _ _; exact ⟨[], rfl, by simp [mapOpt]⟩
  | cons r rest ih =>
    intro haff hcons
    rcases ih (fun x hx => haff x (List.mem_cons_of_mem r hx))
      (fun x hx => hcons x (List.mem_cons_of_mem r hx)) with ⟨tps, htps, hsum⟩
    rcases timeProduct_of_resolved s r (hcons r (List.mem_cons_self r rest)) with
      ⟨p, hp, hbytes⟩
    refine ⟨(decide (0 < count_ntime r.sshape), p) :: tps, ?_, ?_⟩
    · simp [mapOpt, hp, htps]
    · have hc := haff r (List.mem_cons_self r rest)
      interval_cases hcv : count_ntime r.sshape
      · have hb0 : array_bytes r.shape r.dtype = p := by
          rw [hbytes]; simp
        simp only [List.filter_cons, List.map_cons, List.sum_cons]
        norm_num
        rw [← hsum, hb0]; ring
      · have hb1 : array_bytes r.shape r.dtype = s.ntime * p := by
          rw [hbytes, hnt]; simp
        simp only [List.filter_cons, List.map_cons, List.sum_cons]
        norm_num
        rw [← hsum, hb1]; ring

/-- After `self.arrays[name] = new`, looking up `name` yields `new`. -/
lemma findArray_updateArrays (name : String) (new : ArrayRecord)
    (hname : new.name = name) :
    ∀ l : List ArrayRecord,
      (updateArrays l name new).find? (fun r => r.name == name) = some new := by
  intro l
  induction l with
  | nil => simp [updateArrays, List.find?, hname]
  | cons r rest ih =>
    by_cases h : r.name = name
    · simp [updateArrays, h, List.find?, hname]
    · simp only [updateArrays, if_neg h]
      rw [List.find?_cons_of_neg _ (by simp [h])]
      exact ih

/-- Field extraction for a successful construction: the non-negativity
checks all passed, the zero-source check passed, and every field of the
returned solver is the corresponding `toNat` of its defining expression. -/
lemma mk_ok_fields (na nchan ntime npsrc ngsrc nssrc : Int) (dtype : DType)
    (autocor : Bool) (context : Option Unit) (sc : Bool) (s : BaseSolver)
    (h : mkBaseSolver na nchan ntime npsrc ngsrc nssrc dtype autocor context sc
          = .ok s) :
    ¬na < 0 ∧ ¬nr_of_baselines na autocor < 0 ∧ ¬nchan < 0 ∧ ¬ntime < 0 ∧
    ¬npsrc < 0 ∧ ¬ngsrc < 0 ∧ ¬nssrc < 0 ∧ ¬npsrc + ngsrc + nssrc = 0 ∧
    s.na = na.toNat ∧ s.nbl = (nr_of_baselines na autocor).toNat ∧
    s.nchan = nchan.toNat ∧ s.ntime = ntime.toNat ∧
    s.npsrc = npsrc.toNat ∧ s.ngsrc = ngsrc.toNat ∧ s.nssrc = nssrc.toNat ∧
    s.nsrc = (npsrc + ngsrc + nssrc).toNat ∧
    s.nvis = (nr_of_baselines na autocor * nchan * ntime).toNat ∧
    s.ft = dtype ∧ complexTypeOf dtype = some s.ct ∧ s.arrays = [] := by
  unfold mkBaseSolver at h
  by_cases h1 : na < 0
  · rw [if_pos h1] at h; exact Except.noConfusion h
  rw [if_neg h1] at h
  by_cases h2 : nr_of_baselines na autocor < 0
  · rw [if_pos h2] at h; exact Except.noConfusion h
  rw [if_neg h2] at h
  by_cases h3 : nchan < 0
  · rw [if_pos h3] at h; exact Except.noConfusion h
  rw [if_neg h3] at h
  by_cases h4 : ntime < 0
  · rw [if_pos h4] at h; exact Except.noConfusion h
  rw [if_neg h4] at h
  by_cases h5 : npsrc < 0
  · rw [if_pos h5] at h; exact Except.noConfusion h
  rw [if_neg h5] at h
  by_cases h6 : ngsrc < 0
  · rw [if_pos h6] at h; exact Except.noConfusion h
  rw [if_neg h6] at h
  by_cases h7 : nssrc < 0
  · rw [if_pos h7] at h; exact Except.noConfusion h
  rw [if_neg h7] at h
  by_cases h8 : npsrc + ngsrc + nssrc < 0
  · rw [if_pos h8] at h; exact Except.noConfusion h
  rw [if_neg h8] at h
  by_cases h9 : nr_of_baselines na autocor * nchan * ntime < 0
  · rw [if_pos h9] at h; exact Except.noConfusion h
  rw [if_neg h9] at h
  by_cases h10 : npsrc + ngsrc + nssrc = 0
  · rw [if_pos h10] at h; exact Except.noConfusion h
  rw [if_neg h10] at h
  rcases hct : complexTypeOf dtype with _ | ct
  · rw [hct] at h; exact Except.noConfusion h
  · rw [hct] at h
    cases context with
    | none => exact Except.noConfusion h
    | some u =>
      simp only [Except.ok.injEq] at h
      subst h
      exact ⟨h1, h2, h3, h4, h5, h6, h7, h10,
        rfl, rfl, rfl, rfl, rfl, rfl, rfl, rfl, rfl, rfl, rfl, rfl⟩

/-- Claim C1, counterexample: the source clamps the *budget* to zero, not
the *result*.  On a solver with fixed cost `a = 16` bytes and per-timestep
cost `b = 4` bytes, a budget of `0 ≤ a` yields `(0 - 16 + 4 - 1) // 4 = -4`,
not the `0` the claim requires for every `budget ≤ a`. -/
theorem viable_timesteps_not_clamped :
    timeCoeffs budgetSolver = some (16, 4) ∧
    (0 : Int) ≤ 16 ∧
    viable_timesteps budgetSolver 0 = .ok (.intVal (-4)) ∧
    (Except.ok (VtResult.intVal (-4)) : Except VtError VtResult)
      ≠ .ok (.intVal 0) := by decide

/-- Claim C1 (amended): for every solver whose registered arrays give
affine coefficients `(a, b)` with `b > 0` and whose self-check assertion
passes, `viable_timesteps(budget)` returns
`floor((max(budget, 0) - a + b - 1) / b)` — the negative budget is
replaced by `0`, but the result itself is not clamped and can be
negative. -/
theorem viable_timesteps_formula (s : BaseSolver) (a b : Nat) (budget : Int)
    (hc : timeCoeffs s = some (a, b)) (hb : 0 < b)
    (hassert : a + b * s.ntime = bytes_required s) :
    viable_timesteps s budget =
      .ok (.intVal (Int.fdiv
        ((if budget < 0 then 0 else budget) - (a : Int) + (b : Int) - 1)
        (b : Int))) := by
  have hb' : b ≠ 0 := Nat.pos_iff_ne_zero.mp hb
  have hne : s.arrays.isEmpty = false := by
    cases harr : s.arrays with
    | nil =>
      have h0 : timeCoeffs s = some (0, 0) := by simp [timeCoeffs, harr, mapOpt]
      rw [hc] at h0
      simp only [Option.some.injEq, Prod.mk.injEq] at h0
      exact absurd h0.2 hb'
    | cons r rest => rfl
  simp only [viable_timesteps, hc]
  rw [if_pos hassert, if_neg (by simp [hne]), if_neg hb']

/-- Witness for C1's amended theorem at a concrete solver and budget. -/
theorem viable_timesteps_formula_witness :
    timeCoeffs budgetSolver = some (16, 4) ∧ 0 < 4 ∧
    viable_timesteps budgetSolver 100 = .ok (.intVal 21) := by
  refine ⟨by decide, by decide, ?_⟩
  have h := viable_timesteps_formula budgetSolver 16 4 100 (by decide) (by decide)
    (by decide)
  rw [h]; decide

/-- A solver holding a record whose symbolic shape references `'ntime'`
twice — a shape that is quadratic, not affine, in the scaling dimension.
Its stored shape agrees with the dimension table (`ntime = 2`). -/
def cex2Solver : BaseSolver :=
  { solver0 with ntime := 2, arrays :=
      [ { name := "sq", sshape := [SDim.dim "ntime", SDim.dim "ntime"],
          shape := [2, 2], dtype := DType.float32, registrant := "test",
          has_cpu_ary := false, has_gpu_ary := true } ] }

/-- Claim C2, counterexample: for a record quadratic in `'ntime'` the
affine model gives `a + b·ntime = 0 + 4·2 = 8` while `bytes_required`
is `16`, so the self-check assertion fails — it does not hold for every
solver state. -/
theorem bytes_affine_assert_fails :
    timeCoeffs cex2Solver = some (0, 4) ∧
    bytes_required cex2Solver = 16 ∧
    0 + 4 * cex2Solver.ntime ≠ bytes_required cex2Solver ∧
    viable_timesteps cex2Solver 1000 = .error .assertionFailed := by decide

/-- Claim C2 (amended): `bytes_required()` is the sum over all records of
`product(resolved shape) × element size`; and on every solver state whose
records are affine in `'ntime'` (each symbolic shape references `'ntime'`
at most once), whose stored shapes agree with the current dimension table,
and where no registered property shadows `'ntime'`, the affine
decomposition satisfies `a + b·ntime = bytes_required()` and the
self-check assertion of `viable_timesteps` never fails. -/
theorem bytes_required_affine (s : BaseSolver)
    (hnt : s.extraProps.lookup "ntime" = none)
    (haff : ∀ r ∈ s.arrays, count_ntime r.sshape ≤ 1)
    (hcons : ∀ r ∈ s.arrays,
      get_numeric_shape r.sshape (getProperties s) [] = some r.shape) :
    bytes_required s = (s.arrays.map (fun r => array_bytes r.shape r.dtype)).sum ∧
    (∃ a b, timeCoeffs s = some (a, b) ∧ a + b * s.ntime = bytes_required s) ∧
    ∀ budget, viable_timesteps s budget ≠ .error .assertionFailed := by
  have hp : getProperties s "ntime" = some s.ntime := by
    simp [getProperties, hnt]
  rcases affine_decomp s hp s.arrays haff hcons with ⟨tps, htps, hsum⟩
  have hcoef : timeCoeffs s =
      some (((tps.filter (fun p => !p.fst)).map Prod.snd).sum,
            ((tps.filter (fun p => p.fst)).map Prod.snd).sum) := by
    simp [timeCoeffs, htps]
  have hsum' : ((tps.filter (fun p => !p.fst)).map Prod.snd).sum
      + ((tps.filter (fun p => p.fst)).map Prod.snd).sum * s.ntime
      = bytes_required s := hsum
  refine ⟨rfl, ⟨_, _, hcoef, hsum'⟩, ?_⟩
  intro budget
  simp only [viable_timesteps, hcoef]
  rw [if_pos hsum']
  by_cases he : s.arrays.isEmpty
  · rw [if_pos he]; simp
  · rw [if_neg he]
    by_cases hb : ((tps.filter (fun p => p.fst)).map Prod.snd).sum = 0
    · rw [if_pos hb]; simp
    · rw [if_neg hb]; simp

/-- Witness for C2's amended theorem at a concrete solver. -/
theorem bytes_required_affine_witness :
    bytes_required budgetSolver = 56 ∧
    viable_timesteps budgetSolver 3 ≠ .error .assertionFailed := by
  have h := bytes_required_affine budgetSolver rfl (by decide) (by decide)
  exact ⟨by decide, h.2.2 3⟩

/-- Reduction of `register_array` when the name is already registered and
the new shape resolves: the result is decided by `handle_existing_array`
on the new record built from the resolved shape, the substituted dtype
and the monotone storage flags. -/
lemma register_array_eq (s : BaseSolver) (old : ArrayRecord) (name : String)
    (sshape : List SDim) (dt : DTypeArg) (reg : String) (o : RegOpts)
    (shape : List Nat)
    (hold : findArray s name = some old)
    (hres : get_numeric_shape sshape (getProperties s) [] = some shape) :
    register_array s name sshape dt reg o =
      match handle_existing_array (some old)
          (ArrayRecord.mk name sshape shape (get_actual_dtype s dt) reg
            (old.has_cpu_ary || (o.cpu || s.store_cpu))
            (old.has_gpu_ary || o.gpu)) o.replace with
      | .error e => .error e
      | .ok _ => .ok { s with arrays := updateArrays s.arrays name (ArrayRecord.mk name sshape shape (get_actual_dtype s dt) reg (old.has_cpu_ary || (o.cpu || s.store_cpu)) (old.has_gpu_ary || o.gpu)) } := by
  simp only [register_array, hold, hres]

/-- Claim C3: re-registering an existing array name with an identical
resolved shape and element type succeeds and only extends the storage
flags (false-to-true only); a differing resolved shape or element type
without `replace` fails with an error identifying the existing
registrant; with `replace` the conflict check is bypassed and the record
is overwritten. -/
theorem register_array_existing (s : BaseSolver) (old : ArrayRecord)
    (name : String) (sshape : List SDim) (dt : DTypeArg) (reg : String)
    (o : RegOpts) (shape : List Nat)
    (hold : findArray s name = some old)
    (hres : get_numeric_shape sshape (getProperties s) [] = some shape) :
    (o.replace = false → shape = old.shape → get_actual_dtype s dt = old.dtype →
      ∃ s' r', register_array s name sshape dt reg o = .ok s' ∧
        findArray s' name = some r' ∧
        r'.shape = old.shape ∧ r'.dtype = old.dtype ∧
        (old.has_cpu_ary = true → r'.has_cpu_ary = true) ∧
        (old.has_gpu_ary = true → r'.has_gpu_ary = true)) ∧
    (o.replace = false → ¬(shape = old.shape ∧ get_actual_dtype s dt = old.dtype) →
      ∃ e, register_array s name sshape dt reg o = .error e ∧
        RegError.conflictRegistrant e = some old.registrant) ∧
    (o.replace = true →
      ∃ s', register_array s name sshape dt reg o = .ok s' ∧
        findArray s' name = some
          { name := name, sshape := sshape, shape := shape,
            dtype := get_actual_dtype s dt, registrant := reg,
            has_cpu_ary := old.has_cpu_ary || (o.cpu || s.store_cpu),
            has_gpu_ary := old.has_gpu_ary || o.gpu }) := by
  have key := register_array_eq s old name sshape dt reg o shape hold hres
  refine ⟨?_, ?_, ?_⟩
  · intro hrep hsh hdt
    have hh : handle_existing_array (some old)
        (ArrayRecord.mk name sshape shape (get_actual_dtype s dt) reg
          (old.has_cpu_ary || (o.cpu || s.store_cpu))
          (old.has_gpu_ary || o.gpu)) o.replace = .ok () := by
      simp [handle_existing_array, hrep, hsh, hdt]
    rw [hh] at key
    refine ⟨_, _, key, findArray_updateArrays name _ rfl s.arrays, hsh, hdt, ?_, ?_⟩
    · intro hc; simp [hc]
    · intro hg; simp [hg]
  · intro hrep hne
    by_cases hsh : shape = old.shape
    · have hdt : ¬ get_actual_dtype s dt = old.dtype := fun hdt => hne ⟨hsh, hdt⟩
      have hh : handle_existing_array (some old)
          (ArrayRecord.mk name sshape shape (get_actual_dtype s dt) reg
            (old.has_cpu_ary || (o.cpu || s.store_cpu))
            (old.has_gpu_ary || o.gpu)) o.replace =
          .error (.typeConflict old.name old.registrant old.dtype
            (get_actual_dtype s dt)) := by
        have hdt' : ¬ old.dtype = get_actual_dtype s dt := fun hh => hdt hh.symm
        simp [handle_existing_array, hrep, hsh, hdt']
      rw [hh] at key
      exact ⟨_, key, rfl⟩
    · have hh : handle_existing_array (some old)
          (ArrayRecord.mk name sshape shape (get_actual_dtype s dt) reg
            (old.has_cpu_ary || (o.cpu || s.store_cpu))
            (old.has_gpu_ary || o.gpu)) o.replace =
          .error (.shapeConflict old.name old.registrant old.shape shape) := by
        have hsh' : ¬ old.shape = shape := fun hh => hsh hh.symm
        simp [handle_existing_array, hrep, hsh']
      rw [hh] at key
      exact ⟨_, key, rfl⟩
  · intro hrep
    have hh : handle_existing_array (some old)
        (ArrayRecord.mk name sshape shape (get_actual_dtype s dt) reg
          (old.has_cpu_ary || (o.cpu || s.store_cpu))
          (old.has_gpu_ary || o.gpu)) o.replace = .ok () := by
      simp [handle_existing_array, hrep]
    rw [hh] at key
    exact ⟨_, key, findArray_updateArrays name _ rfl s.arrays⟩

/-- A solver with one registered array (`vis`, shape `[2, 3]`, `float32`,
registered by `stageA`), used to witness the registration and write
checks. -/
def regSolver : BaseSolver :=
  { solver0 with arrays :=
      [ { name := "vis", sshape := [SDim.lit 2, SDim.lit 3], shape := [2, 3],
          dtype := DType.float32, registrant := "stageA",
          has_cpu_ary := false, has_gpu_ary := true } ] }

/-- Witness for C3 at a concrete solver: an identical re-registration
succeeds with monotone flags, a conflicting one names the registrant
`stageA`, and `replace` overwrites. -/
theorem register_array_existing_witness :
    (∃ s' r',
      register_array regSolver "vis" [SDim.lit 2, SDim.lit 3]
          (DTypeArg.concrete DType.float32) "stageB"
          { cpu := true, gpu := true, replace := false } = .ok s' ∧
        findArray s' "vis" = some r' ∧
        r'.shape = [2, 3] ∧ r'.dtype = DType.float32 ∧
        (false = true → r'.has_cpu_ary = true) ∧
        (true = true → r'.has_gpu_ary = true)) ∧
    (∃ e,
      register_array regSolver "vis" [SDim.lit 7]
          (DTypeArg.concrete DType.float32) "stageB"
          { cpu := false, gpu := true, replace := false } = .error e ∧
        RegError.conflictRegistrant e = some "stageA") ∧
    (∃ s',
      register_array regSolver "vis" [SDim.lit 7]
          (DTypeArg.concrete DType.float32) "stageB"
          { cpu := false, gpu := true, replace := true } = .ok s' ∧
        findArray s' "vis" = some
          { name := "vis", sshape := [SDim.lit 7], shape := [7],
            dtype := DType.float32, registrant := "stageB",
            has_cpu_ary := false || (false || false),
            has_gpu_ary := false || true }) := by
  refine ⟨?_, ?_, ?_⟩
  · exact (register_array_existing regSolver
      { name := "vis", sshape := [SDim.lit 2, SDim.lit 3], shape := [2, 3],
        dtype := DType.float32, registrant := "stageA",
        has_cpu_ary := false, has_gpu_ary := true }
      "vis" [SDim.lit 2, SDim.lit 3] (DTypeArg.concrete DType.float32) "stageB"
      { cpu := true, gpu := true, replace := false } [2, 3]
      (by decide) (by decide)).1 rfl rfl rfl
  · exact (register_array_existing regSolver
      { name := "vis", sshape := [SDim.lit 2, SDim.lit 3], shape := [2, 3],
        dtype := DType.float32, registrant := "stageA",
        has_cpu_ary := false, has_gpu_ary := true }
      "vis" [SDim.lit 7] (DTypeArg.concrete DType.float32) "stageB"
      { cpu := false, gpu := true, replace := false } [7]
      (by decide) (by decide)).2.1 rfl (by decide)
  · exact (register_array_existing regSolver
      { name := "vis", sshape := [SDim.lit 2, SDim.lit 3], shape := [2, 3],
        dtype := DType.float32, registrant := "stageA",
        has_cpu_ary := false, has_gpu_ary := true }
      "vis" [SDim.lit 7] (DTypeArg.concrete DType.float32) "stageB"
      { cpu := false, gpu := true, replace := true } [7]
      (by decide) (by decide)).2.2 rfl

/-- Claim C4: every write to a registered buffer (all write paths call
`check_array` first) fails with the shape error when the candidate's
shape differs from the record's resolved shape, fails with the type error
when the shape matches but the dtype differs, and succeeds on a full
match — the candidate's total byte size is never consulted. -/
theorem check_array_spec (s : BaseSolver) (name : String) (r : ArrayRecord)
    (aryShape : List Nat) (aryDtype : DType)
    (h : findArray s name = some r) :
    (aryShape ≠ r.shape →
      write_registered s name aryShape aryDtype =
        .error (.shapeMismatch r.name r.shape aryShape)) ∧
    (aryShape = r.shape → aryDtype ≠ r.dtype →
      write_registered s name aryShape aryDtype =
        .error (.typeMismatch r.name r.dtype aryDtype)) ∧
    (aryShape = r.shape → aryDtype = r.dtype →
      write_registered s name aryShape aryDtype = .ok ()) := by
  simp only [write_registered, h]
  unfold check_array
  refine ⟨?_, ?_, ?_⟩
  · intro hsh
    rw [if_pos (fun hh => hsh hh.symm)]
  · intro hsh hdt
    rw [if_neg (not_not_intro hsh.symm), if_pos (fun hh => hdt hh.symm)]
  · intro hsh hdt
    rw [if_neg (not_not_intro hsh.symm), if_neg (not_not_intro hdt.symm)]

/-- Witness for C4: mismatches fail even when the byte sizes agree
(`[3,2]` vs `[2,3]` at 24 bytes each; `int32` vs `float32` at 4 bytes
each), and the exact match succeeds. -/
theorem check_array_spec_witness :
    array_bytes [3, 2] DType.float32 = array_bytes [2, 3] DType.float32 ∧
    write_registered regSolver "vis" [3, 2] DType.float32 =
      .error (.shapeMismatch "vis" [2, 3] [3, 2]) ∧
    array_bytes [2, 3] DType.int32 = array_bytes [2, 3] DType.float32 ∧
    write_registered regSolver "vis" [2, 3] DType.int32 =
      .error (.typeMismatch "vis" DType.float32 DType.int32) ∧
    write_registered regSolver "vis" [2, 3] DType.float32 = .ok () := by
  refine ⟨by decide, ?_, by decide, ?_, ?_⟩
  · exact (check_array_spec regSolver "vis"
      { name := "vis", sshape := [SDim.lit 2, SDim.lit 3], shape := [2, 3],
        dtype := DType.float32, registrant := "stageA",
        has_cpu_ary := false, has_gpu_ary := true }
      [3, 2] DType.float32 (by decide)).1 (by decide)
  · exact (check_array_spec regSolver "vis"
      { name := "vis", sshape := [SDim.lit 2, SDim.lit 3], shape := [2, 3],
        dtype := DType.float32, registrant := "stageA",
        has_cpu_ary := false, has_gpu_ary := true }
      [2, 3] DType.int32 (by decide)).2.1 rfl (by decide)
  · exact (check_array_spec regSolver "vis"
      { name := "vis", sshape := [SDim.lit 2, SDim.lit 3], shape := [2, 3],
        dtype := DType.float32, registrant := "stageA",
        has_cpu_ary := false, has_gpu_ary := true }
      [2, 3] DType.float32 (by decide)).2.2 rfl rfl

/-- Claim C5: a successful construction sets the baseline count to
`n(n-1)/2` (or `n(n+1)/2` with auto-correlations), the total source count
to `npsrc + ngsrc + nssrc` and the visibility count to
`baselines × channels × timesteps`. -/
theorem construct_derived_dims (na nchan ntime npsrc ngsrc nssrc : Int)
    (dtype : DType) (autocor : Bool) (context : Option Unit) (sc : Bool)
    (s : BaseSolver) (_hna : 0 ≤ na)
    (h : mkBaseSolver na nchan ntime npsrc ngsrc nssrc dtype autocor context sc
          = .ok s) :
    (s.nbl : Int) = (if autocor then Int.fdiv (na * (na + 1)) 2
                     else Int.fdiv (na * (na - 1)) 2) ∧
    (s.nsrc : Int) = npsrc + ngsrc + nssrc ∧
    s.nvis = s.nbl * s.nchan * s.ntime := by
  obtain ⟨-, h2, h3, h4, h5, h6, h7, -, -, hnbl, hnchan, hntime, -, -, -, hnsrc,
    hnvis, -, -, -⟩ :=
    mk_ok_fields na nchan ntime npsrc ngsrc nssrc dtype autocor context sc s h
  have hb : (0 : Int) ≤ nr_of_baselines na autocor := not_lt.mp h2
  have hc : (0 : Int) ≤ nchan := not_lt.mp h3
  have ht : (0 : Int) ≤ ntime := not_lt.mp h4
  refine ⟨?_, ?_, ?_⟩
  · rw [hnbl, Int.toNat_of_nonneg hb]; rfl
  · rw [hnsrc, Int.toNat_of_nonneg
      (add_nonneg (add_nonneg (not_lt.mp h5) (not_lt.mp h6)) (not_lt.mp h7))]
  · have hcast : (s.nvis : Int) = (s.nbl : Int) * (s.nchan : Int) * (s.ntime : Int) := by
      rw [hnvis, hnbl, hnchan, hntime,
        Int.toNat_of_nonneg (mul_nonneg (mul_nonneg hb hc) ht),
        Int.toNat_of_nonneg hb, Int.toNat_of_nonneg hc, Int.toNat_of_nonneg ht]
    exact_mod_cast hcast

/-- The solver produced by `BaseSolver(na=5, nchan=4, ntime=10, npsrc=2,
ngsrc=1, nssrc=0)` without auto-correlations. -/
def solver5 : BaseSolver :=
  { na := 5, nbl := 10, nchan := 4, ntime := 10, npsrc := 2, ngsrc := 1,
    nssrc := 0, nsrc := 3, nvis := 400, ft := DType.float32,
    ct := DType.complex64, store_cpu := false, arrays := [], extraProps := [] }

/-- Witness for C5 at a concrete construction. -/
theorem construct_derived_dims_witness :
    (0 : Int) ≤ 5 ∧ (solver5.nbl : Int) = 10 ∧ (solver5.nsrc : Int) = 3 ∧
    solver5.nvis = solver5.nbl * solver5.nchan * solver5.ntime := by
  have h := construct_derived_dims 5 4 10 2 1 0 DType.float32 false (some ())
    false solver5 (by decide) (by decide)
  refine ⟨by decide, ?_, ?_, h.2.2⟩
  · rw [h.1]; decide
  · rw [h.2.1]; decide

/-- Claim C6, counterexample: assigning the antenna count after
construction does not recompute the derived baseline count — after
`na := 5` the solver still has `nbl = 3`, not `5·(5-1)/2 = 10`. -/
theorem set_param_no_recompute_cex :
    set_na solver0 5 = .ok { solver0 with na := 5 } ∧
    ({ solver0 with na := 5 } : BaseSolver).na = 5 ∧
    ({ solver0 with na := 5 } : BaseSolver).nbl = 3 ∧
    (3 : Nat) ≠ 5 * (5 - 1) / 2 := by decide

/-- Claim C6 (amended): the `Parameter` descriptor setters only validate
non-negativity and store the value; the derived dimensions `nbl`, `nsrc`
and `nvis` are computed once at construction and are left unchanged by
any later assignment to an input dimension. -/
theorem set_param_no_recompute (s : BaseSolver) (v : Int) (hv : 0 ≤ v) :
    set_na s v = .ok { s with na := v.toNat } ∧
    set_nchan s v = .ok { s with nchan := v.toNat } ∧
    set_ntime s v = .ok { s with ntime := v.toNat } ∧
    ({ s with na := v.toNat } : BaseSolver).nbl = s.nbl ∧
    ({ s with na := v.toNat } : BaseSolver).nsrc = s.nsrc ∧
    ({ s with na := v.toNat } : BaseSolver).nvis = s.nvis ∧
    ({ s with nchan := v.toNat } : BaseSolver).nvis = s.nvis ∧
    ({ s with ntime := v.toNat } : BaseSolver).nvis = s.nvis := by
  have hv' : ¬ v < 0 := not_lt.mpr hv
  exact ⟨by simp [set_na, hv'], by simp [set_nchan, hv'],
    by simp [set_ntime, hv'], rfl, rfl, rfl, rfl, rfl⟩

/-- Witness for C6's amended theorem at a concrete solver. -/
theorem set_param_no_recompute_witness :
    set_na solver0 7 = .ok { solver0 with na := 7 } ∧
    ({ solver0 with na := 7 } : BaseSolver).nbl = solver0.nbl := by
  have h := set_param_no_recompute solver0 7 (by decide)
  exact ⟨h.1, h.2.2.2.1⟩

/-- Claim C7: with `npsrc + ngsrc + nssrc = 0` construction fails before
the context is touched (the same error is returned whether or not a
context is supplied, in particular with none), but the exception raised
is the `TypeError` produced by applying `%` to the already-constructed
`ValueError` — not the positive-total-source-count validation error the
claim names.  An unsupported dtype likewise fails before the context is
touched, with the unsupported-element-type error. -/
theorem zero_sources_format_bug :
    mkBaseSolver 3 4 10 0 0 0 DType.float32 false none false
        = .error .sourceCountTypeError ∧
    mkBaseSolver 3 4 10 0 0 0 DType.float32 false (some ()) false
        = .error .sourceCountTypeError ∧
    mkBaseSolver 3 4 10 2 1 0 DType.int32 false none false
        = .error .unsupportedDType ∧
    mkBaseSolver 3 4 10 2 1 0 DType.int32 false (some ()) false
        = .error .unsupportedDType := by decide

/-- Claim C8: splitting `N` into `k` chunks gives `k` ordered values
summing to `N`, the first `k - N % k` equal to `N / k` and the remaining
`N % k` equal to `N / k + 1`, each within one of the mean (stated scaled
by `k`: `N ≤ k·x + k` and `k·x ≤ N + k`). -/
theorem chunk_sizes_spec (N k : Nat) (_hN : 0 < N) (hk : 0 < k) :
    (chunk_sizes N k).length = k ∧
    (chunk_sizes N k).sum = N ∧
    (chunk_sizes N k).take (k - N % k) = List.replicate (k - N % k) (N / k) ∧
    (chunk_sizes N k).drop (k - N % k) = List.replicate (N % k) (N / k + 1) ∧
    (∀ x ∈ chunk_sizes N k,
      (x = N / k ∨ x = N / k + 1) ∧ k * x ≤ N + k ∧ N ≤ k * x + k) := by
  have hmod : N % k < k := Nat.mod_lt _ hk
  have hle : N % k ≤ k := le_of_lt hmod
  have hqr : k * (N / k) + N % k = N := Nat.div_add_mod N k
  have hkq : k * (N / k) ≤ N := by omega
  refine ⟨?_, ?_, ?_, ?_, ?_⟩
  · simp only [chunk_sizes, List.length_append, List.length_replicate]
    omega
  · simp only [chunk_sizes, List.sum_append, List.sum_replicate, smul_eq_mul]
    have h1 : N % k * (N / k) ≤ k * (N / k) :=
      Nat.mul_le_mul_right _ hle
    rw [Nat.sub_mul, Nat.mul_add, Nat.mul_one, ← Nat.add_assoc,
      Nat.sub_add_cancel h1]
    exact hqr
  · have h := List.take_left (List.replicate (k - N % k) (N / k))
      (List.replicate (N % k) (N / k + 1))
    rwa [List.length_replicate] at h
  · have h := List.drop_left (List.replicate (k - N % k) (N / k))
      (List.replicate (N % k) (N / k + 1))
    rwa [List.length_replicate] at h
  · intro x hx
    rw [chunk_sizes, List.mem_append] at hx
    rcases hx with hx | hx
    · have hxq : x = N / k := List.eq_of_mem_replicate hx
      subst hxq
      exact ⟨Or.inl rfl, by omega, by omega⟩
    · have hxq : x = N / k + 1 := List.eq_of_mem_replicate hx
      subst hxq
      have hmul : k * (N / k + 1) = k * (N / k) + k := Nat.mul_succ k (N / k)
      exact ⟨Or.inr rfl, by omega, by omega⟩

/-- Witness for C8 at the spec's example: 27 timesteps into 3 chunks. -/
theorem chunk_sizes_spec_witness :
    (chunk_sizes 27 3).sum = 27 ∧ chunk_sizes 27 3 = [9, 9, 9] := by
  have h := chunk_sizes_spec 27 3 (by decide) (by decide)
  exact ⟨h.2.1, by decide⟩

/-- Claim C9: entering the scope runs `initialise` before the body, and
the final trace is the body's trace followed by `shutdown` whatever the
body did — `shutdown` runs on the normal and on the exceptional exit path
alike, and the body's outcome (value or error) is propagated unchanged. -/
theorem with_solver_shutdown_always {β E : Type}
    (body : List Event → List Event × Except E β) (t : List Event) :
    (withStmt body t).1 = (body (solver_enter t)).1 ++ [Event.shutdown] ∧
    (withStmt body t).2 = (body (solver_enter t)).2 := by
  rcases hb : body (solver_enter t) with ⟨t2, r⟩
  cases r <;> simp [withStmt, solver_exit, hb]
